import Mathlib

/-!
Shallow embedding of the BLE MITM relay tool.

Sources embedded:
- mitm_proxy.py: the forwarding queues, the notification handler with the
  on_periph_notify hook, the write loop with the on_central_write hook and the
  write-response-mode decision, and the public write path.
- fake_oat1040_bluez.py: the emulated GATT characteristic object
  (ReadValue, WriteValue, StartNotify, StopNotify, push_notify), the
  hardcoded topology registered by FakeOAT1040Peripheral.start, and
  notify_characteristic.
- relay_client.py: the writable-set derivation of load_profile and of the
  live-discovery fallback find_from_live.

Payloads are byte lists, uuids are strings, asyncio queues are lists in
FIFO order, and side effects (D-Bus signals, callbacks) are explicit event
lists returned by each operation.
-/

/-- A byte payload (a Python bytes object). -/
abbrev Bytes := List Nat

/-- A characteristic or service uuid. -/
abbrev Uuid := String

/-! Embedding of mitm_proxy.py -/

/-- Outcome of calling a user interception hook: a normal return carrying an
optional replacement payload, or a raised exception. -/
inductive HookOutcome where
  | ok : Option Bytes → HookOutcome
  | exn : HookOutcome
deriving DecidableEq

/-- A user interception hook (config.on_periph_notify or config.on_central_write):
called with the characteristic uuid and the payload. -/
abbrev Hook := Uuid → Bytes → HookOutcome

/-- The hook block shared by _on_peripheral_notification (lines 274-281) and
_periph_write_loop (lines 298-305): a non-None return value replaces the data; a
None return keeps it; a raised exception is caught, logged, and leaves the data
unchanged — execution falls through in every case. -/
def hookApply (out : HookOutcome) (data : Bytes) : Bytes :=
  match out with
  | HookOutcome.ok (some r) => r
  | HookOutcome.ok none => data
  | HookOutcome.exn => data

/-- Applying an optionally registered hook to a payload, as both loops do. -/
def runHook (hook : Option Hook) (u : Uuid) (data : Bytes) : Bytes :=
  match hook with
  | none => data
  | some h => hookApply (h u data) data

/-- put_nowait on one of the two forwarding queues. Both queues are created as
asyncio.Queue() with no maxsize argument (mitm_proxy.py lines 98-99), so the
queue is unbounded and a put always appends the item at the tail. -/
def putNowait (q : List (Uuid × Bytes)) (item : Uuid × Bytes) : List (Uuid × Bytes) :=
  q ++ [item]

/-- A sequence of puts onto a forwarding queue, in order. -/
def putNowaitAll (q : List (Uuid × Bytes)) (items : List (Uuid × Bytes)) : List (Uuid × Bytes) :=
  items.foldl putNowait q

/-- MITMProxy._on_peripheral_notification (lines 269-284): run the
on_periph_notify hook block, then unconditionally enqueue the (uuid, data) pair
on the peripheral-to-emulator queue. -/
def onPeripheralNotification (hook : Option Hook) (q : List (Uuid × Bytes))
    (u : Uuid) (data : Bytes) : List (Uuid × Bytes) :=
  putNowait q (u, runHook hook u data)

/-- MITMProxy.write_to_peripheral (lines 383-386): enqueue one (uuid, data) pair
on the emulator-to-peripheral queue. -/
def writeToPeripheral (q : List (Uuid × Bytes)) (u : Uuid) (data : Bytes) :
    List (Uuid × Bytes) :=
  putNowait q (u, data)

/-- MITMProxy._on_emulator_write (lines 392-401): a write arriving from the
central on the emulated peripheral is forwarded by scheduling exactly one
write_to_peripheral call. -/
def onEmulatorWrite (q : List (Uuid × Bytes)) (u : Uuid) (data : Bytes) :
    List (Uuid × Bytes) :=
  writeToPeripheral q u data

/-- Whether a GATT write is issued with response (acknowledged) or without
(unacknowledged). -/
inductive WriteMode where
  | unacknowledged
  | acknowledged
deriving DecidableEq

/-- The observable outcome of one iteration of _periph_write_loop for one
dequeued item: either a write_gatt_char call with the payload and mode, or the
logged skip when the target characteristic has no write capability. -/
inductive WriteAction where
  | writeGattChar : Uuid → Bytes → WriteMode → WriteAction
  | skippedNotWritable : Uuid → WriteAction
deriving DecidableEq

/-- The properties lookup and response-mode decision of _periph_write_loop
(mitm_proxy.py lines 307-328): write-without-response is preferred when
advertised, a plain write capability gives an acknowledged write, no write
capability logs a warning and skips, and an unknown characteristic defaults to
an unacknowledged write. -/
def periphWriteAction (findProps : Uuid → Option (List String)) (u : Uuid)
    (data : Bytes) : WriteAction :=
  match findProps u with
  | some props =>
      if props.contains "write-without-response" then
        WriteAction.writeGattChar u data WriteMode.unacknowledged
      else if props.contains "write" then
        WriteAction.writeGattChar u data WriteMode.acknowledged
      else
        WriteAction.skippedNotWritable u
  | none => WriteAction.writeGattChar u data WriteMode.unacknowledged

/-- One full iteration of _periph_write_loop (lines 286-335) on a dequeued
(uuid, data) item: the on_central_write hook block followed by the write
decision. -/
def periphWriteStep (hook : Option Hook) (findProps : Uuid → Option (List String))
    (u : Uuid) (data : Bytes) : WriteAction :=
  periphWriteAction findProps u (runHook hook u data)

/-! Embedding of fake_oat1040_bluez.py -/

/-- An observable side effect of a GattCharacteristic method: the
on_client_connect callback firing, a PropertiesChanged D-Bus signal on the
Notifying property or on the Value property, or the on_write callback firing. -/
inductive Event where
  | clientConnected : Event
  | propsChangedNotifying : Bool → Event
  | propsChangedValue : Bytes → Event
  | writeHookCalled : Uuid → Bytes → Event
deriving DecidableEq

/-- State of one emulated GattCharacteristic (fake_oat1040_bluez.py lines
166-190). The hasOnWrite and hasOnClientConnect fields record whether the
optional _on_write and _on_client_connect callbacks were supplied. -/
structure GattCharacteristic where
  uuid : Uuid
  flags : List String
  notifying : Bool := false
  value : Bytes := []
  hasOnWrite : Bool := false
  hasOnClientConnect : Bool := false
  clientConnected : Bool := false
deriving DecidableEq

/-- The first-access connection detection shared by ReadValue (lines 214-217)
and StartNotify (lines 230-233): when the per-characteristic _client_connected
flag is still false and an _on_client_connect callback is registered, the flag
is set and the callback fires. -/
def GattCharacteristic.detectClientConnect (c : GattCharacteristic) :
    GattCharacteristic × List Event :=
  if !c.clientConnected && c.hasOnClientConnect then
    ({ c with clientConnected := true }, [Event.clientConnected])
  else
    (c, [])

/-- GattCharacteristic.ReadValue (lines 212-219): run the first-access
detection, then return the cached value. -/
def GattCharacteristic.ReadValue (c : GattCharacteristic) :
    GattCharacteristic × List Event × Bytes :=
  let r := c.detectClientConnect
  (r.1, r.2, r.1.value)

/-- A D-Bus level GATT error reply. -/
inductive GattError where
  | notWritable
deriving DecidableEq

/-- GattCharacteristic.WriteValue (lines 221-226): converts the value to bytes,
logs it, and invokes the _on_write callback when one is registered. The source
performs no capability-flag check and has no error reply path, so the result is
always ok; the stored value is not modified. -/
def GattCharacteristic.WriteValue (c : GattCharacteristic) (data : Bytes) :
    Except GattError (GattCharacteristic × List Event) :=
  Except.ok (c, if c.hasOnWrite then [Event.writeHookCalled c.uuid data] else [])

/-- GattCharacteristic.StartNotify (lines 228-241): first-access detection, set
the notifying flag, and emit a PropertiesChanged signal on Notifying. -/
def GattCharacteristic.StartNotify (c : GattCharacteristic) :
    GattCharacteristic × List Event :=
  let r := c.detectClientConnect
  ({ r.1 with notifying := true }, r.2 ++ [Event.propsChangedNotifying true])

/-- GattCharacteristic.StopNotify (lines 243-252): clear the notifying flag and
emit a PropertiesChanged signal on Notifying. -/
def GattCharacteristic.StopNotify (c : GattCharacteristic) :
    GattCharacteristic × List Event :=
  ({ c with notifying := false }, [Event.propsChangedNotifying false])

/-- GattCharacteristic.push_notify (lines 254-270): always store the new value;
when the characteristic is not notifying, log and return without emitting;
otherwise emit a PropertiesChanged signal on Value. -/
def GattCharacteristic.push_notify (c : GattCharacteristic) (data : Bytes) :
    GattCharacteristic × List Event :=
  let c2 := { c with value := data }
  if !c2.notifying then
    (c2, [])
  else
    (c2, [Event.propsChangedValue data])

/-- The emulated peripheral's characteristic set (the _chars dict and the
_app.characteristics list of FakeOAT1040Peripheral). -/
structure FakePeripheral where
  chars : List GattCharacteristic
deriving DecidableEq

/-- Lookup of a characteristic by uuid (the _chars.get dict access). -/
def FakePeripheral.findChar (p : FakePeripheral) (u : Uuid) :
    Option GattCharacteristic :=
  p.chars.find? (fun c => c.uuid == u)

/-- Apply an operation to the characteristic with the given uuid, leaving the
rest unchanged, collecting the emitted events. -/
def applyToChars (u : Uuid) (f : GattCharacteristic → GattCharacteristic × List Event) :
    List GattCharacteristic → List GattCharacteristic × List Event
  | [] => ([], [])
  | c :: rest =>
      if c.uuid == u then
        let r := f c
        (r.1 :: rest, r.2)
      else
        let r := applyToChars u f rest
        (c :: r.1, r.2)

/-- FakeOAT1040Peripheral.notify_characteristic (lines 603-608): an unknown
uuid is a logged no-op; a known uuid dispatches to that characteristic's
push_notify. The middle component records the push_notify invocations made
(uuid, payload). -/
def FakePeripheral.notify_characteristic (p : FakePeripheral) (u : Uuid)
    (data : Bytes) : FakePeripheral × List (Uuid × Bytes) × List Event :=
  match p.findChar u with
  | none => (p, [], [])
  | some _ =>
      let r := applyToChars u (fun c => c.push_notify data) p.chars
      ({ chars := r.1 }, [(u, data)], r.2)

/-- One notification relayed end to end: _on_peripheral_notification enqueues
onto an empty queue segment and _periph_forward_loop (mitm_proxy.py lines
337-364) drains it in FIFO order, handing each item to the emulated
peripheral's notify_characteristic. Returns the updated peripheral, the
push_notify invocations, and the emitted events. -/
def relayNotification (hook : Option Hook) (p : FakePeripheral) (u : Uuid)
    (data : Bytes) : FakePeripheral × List (Uuid × Bytes) × List Event :=
  (onPeripheralNotification hook [] u data).foldl
    (fun acc item =>
      let r := acc.1.notify_characteristic item.1 item.2
      (r.1, acc.2.1 ++ r.2.1, acc.2.2 ++ r.2.2))
    (p, [], [])

/-- A GATT access arriving from the central over D-Bus: a ReadValue or a
StartNotify addressed to a characteristic uuid. -/
inductive Access where
  | readValue : Uuid → Access
  | startNotifyOn : Uuid → Access
deriving DecidableEq

/-- Dispatch one inbound access to the addressed characteristic. -/
def FakePeripheral.applyAccess (p : FakePeripheral) (a : Access) :
    FakePeripheral × List Event :=
  match a with
  | Access.readValue u =>
      let r := applyToChars u (fun c => ((c.ReadValue).1, (c.ReadValue).2.1)) p.chars
      ({ chars := r.1 }, r.2)
  | Access.startNotifyOn u =>
      let r := applyToChars u (fun c => c.StartNotify) p.chars
      ({ chars := r.1 }, r.2)

/-- Run a session trace of inbound accesses, collecting all events in order. -/
def FakePeripheral.runAccesses (p : FakePeripheral) (as : List Access) :
    FakePeripheral × List Event :=
  as.foldl
    (fun acc a =>
      let r := acc.1.applyAccess a
      (r.1, acc.2 ++ r.2))
    (p, [])

/-- Number of times the on_client_connect callback fired in an event trace. -/
def countConnected (evs : List Event) : Nat :=
  (evs.filter (fun e =>
    match e with
    | Event.clientConnected => true
    | _ => false)).length

/-- A startup configuration error. -/
inductive ConfigError where
  | duplicateUuid
deriving DecidableEq

/-- Python dict assignment m[k] = v: replace the value of an existing key in
place, else append the new binding. -/
def dictInsert (m : List (Uuid × GattCharacteristic)) (k : Uuid)
    (v : GattCharacteristic) : List (Uuid × GattCharacteristic) :=
  match m with
  | [] => [(k, v)]
  | (k0, v0) :: rest =>
      if k0 == k then (k0, v) :: rest else (k0, v0) :: dictInsert rest k v

/-- The characteristic-registration step of FakeOAT1040Peripheral.start
(lines 542-545): each characteristic is inserted into the uuid-keyed _chars
dict in order. -/
def registerChars (cs : List GattCharacteristic) :
    List (Uuid × GattCharacteristic) :=
  cs.foldl (fun m c => dictInsert m c.uuid c) []

/-- The result of the registration step as seen by the caller of start: the
source contains no duplicate-uuid check and no failure path in these lines, so
registration always succeeds with the dict built by registerChars. -/
def startRegistration (cs : List GattCharacteristic) :
    Except ConfigError (List (Uuid × GattCharacteristic)) :=
  Except.ok (registerChars cs)

/-- Whether an Except value is a success. -/
def exceptIsOk {ε α : Type} : Except ε α → Bool
  | Except.ok _ => true
  | Except.error _ => false

/-- Uuid of the writable characteristic char_ffd1. -/
def uuidFfd1 : Uuid := "0000ffd1-0000-1000-8000-00805f9b34fb"

/-- Uuid of the notify characteristic char_fea1. -/
def uuidFea1 : Uuid := "0000fea1-0000-1000-8000-00805f9b34fb"

/-- Uuid of the notify characteristic char_33f2. -/
def uuid33f2 : Uuid := "000033f2-0000-1000-8000-00805f9b34fb"

/-- The hardcoded char_ffd1 of FakeOAT1040Peripheral.start (lines 512-520):
write flags, an _ffd1_written write callback, and the _phone_connected
callback. -/
def char_ffd1 : GattCharacteristic :=
  { uuid := uuidFfd1
    flags := ["write", "write-without-response"]
    hasOnWrite := true
    hasOnClientConnect := true }

/-- The hardcoded char_fea1 (lines 522-530): notify flag only, a 10-byte
initial value, no write callback, the _phone_connected callback. -/
def char_fea1 : GattCharacteristic :=
  { uuid := uuidFea1
    flags := ["notify"]
    value := [7, 0, 0, 0, 0, 0, 0, 0, 0, 0]
    hasOnClientConnect := true }

/-- The hardcoded char_33f2 (lines 532-540): notify flag only, a 1-byte
initial value, no write callback, the _phone_connected callback. -/
def char_33f2 : GattCharacteristic :=
  { uuid := uuid33f2
    flags := ["notify"]
    value := [28]
    hasOnClientConnect := true }

/-- The static topology registered by start (line 542). -/
def startCharacteristics : List GattCharacteristic :=
  [char_ffd1, char_fea1, char_33f2]

/-- The emulated peripheral right after start registered its topology. -/
def startFakePeripheral : FakePeripheral :=
  { chars := startCharacteristics }

/-- A duplicate-uuid topology used to probe the registration step. -/
def dupTopology : List GattCharacteristic :=
  [char_ffd1, char_ffd1]

/-! Embedding of relay_client.py -/

/-- The writable-set derivation of load_profile (relay_client.py lines 40-47):
a characteristic enters the writable set when its properties list contains
the string writable or the string write-without-response. Characteristics are
(uuid, properties) pairs as read from the JSON profile. -/
def loadProfileWritable (chars : List (Uuid × List String)) : List Uuid :=
  (chars.filter (fun cp =>
    cp.2.contains "writable" || cp.2.contains "write-without-response")).map Prod.fst

/-- The writable-set derivation of the live-discovery fallback find_from_live
(relay_client.py lines 60-66): a characteristic enters the writable set when
its properties contain the string write or the string write-without-response. -/
def findFromLiveWritable (chars : List (Uuid × List String)) : List Uuid :=
  (chars.filter (fun cp =>
    cp.2.contains "write" || cp.2.contains "write-without-response")).map Prod.fst

/-- A concrete target-side properties table exposing only an acknowledged
write capability on uuid u1, used as a witness input. -/
def fpOnlyWrite : Uuid → Option (List String) :=
  fun v => if v = "u1" then some ["write"] else none

/-- A concrete target-side properties table exposing both write capabilities
on uuid u1, used as a witness input. -/
def fpBoth : Uuid → Option (List String) :=
  fun v => if v = "u1" then some ["write", "write-without-response"] else none

/-! Theorems -/

/-- Helper: a sequence of put_nowait calls appends the items in FIFO order. -/
theorem putNowaitAll_eq_append (q : List (Uuid × Bytes)) (items : List (Uuid × Bytes)) :
    putNowaitAll q items = q ++ items := by
  induction items generalizing q with
  | nil => simp [putNowaitAll]
  | cons x xs ih =>
      show putNowaitAll (putNowait q x) xs = q ++ x :: xs
      rw [ih]
      simp [putNowait]

/-- Helper: Bool containment on a string list coincides with membership. -/
theorem contains_eq_true_iff_mem (l : List String) (s : String) :
    l.contains s = true ↔ s ∈ l := by
  simp [List.contains, List.elem_iff]

/-- Helper: membership in the first projection of a filtered pair list. -/
theorem mem_map_fst_filter (p : Uuid × List String → Bool)
    (chars : List (Uuid × List String)) (u : Uuid) :
    u ∈ (chars.filter p).map Prod.fst ↔
      ∃ props, (u, props) ∈ chars ∧ p (u, props) = true := by
  constructor
  · intro h
    rcases List.mem_map.mp h with ⟨⟨a, b⟩, hcp, rfl⟩
    rcases List.mem_filter.mp hcp with ⟨hmem, hp⟩
    exact ⟨b, hmem, hp⟩
  · rintro ⟨props, hmem, hp⟩
    exact List.mem_map.mpr ⟨(u, props), List.mem_filter.mpr ⟨hmem, hp⟩, rfl⟩

/-- C1: counterexample. The forwarding queues are created as plain
asyncio.Queue() with no maxsize: 257 consecutive put_nowait calls starting from
an empty queue all succeed and all land in the queue, whose length reaches 257,
exceeding the claimed default bound of 256; the newest item is retained rather
than dropped, and no dropped-forward statistic exists anywhere in the state. -/
theorem C1_counterexample :
    (putNowaitAll [] ((List.range 257).map (fun i => ("u", ([i] : Bytes))))).length = 257 ∧
    ("u", ([256] : Bytes)) ∈
      putNowaitAll [] ((List.range 257).map (fun i => ("u", ([i] : Bytes)))) ∧
    ¬ (257 ≤ 256) := by
  refine ⟨?_, ?_, by decide⟩
  · rw [putNowaitAll_eq_append]
    simp
  · rw [putNowaitAll_eq_append]
    simp only [List.nil_append, List.mem_map, List.mem_range]
    exact ⟨256, by decide, rfl⟩

/-- C1 amended: both relay forwarding queues are unbounded; every put_nowait
appends its item without blocking and without dropping, so a sequence of
enqueues preserves every item in FIFO order, the length grows by exactly the
number of enqueues, and no drop is ever counted (the code maintains no
dropped-forward statistic). -/
theorem C1_amended_unbounded (q : List (Uuid × Bytes)) (items : List (Uuid × Bytes)) :
    putNowaitAll q items = q ++ items ∧
    (putNowaitAll q items).length = q.length + items.length := by
  refine ⟨putNowaitAll_eq_append q items, ?_⟩
  rw [putNowaitAll_eq_append]
  simp

/-- C2: an inbound central write of payload b to the emulated characteristic u
with no interception hook enqueues exactly one item (u, b) on the
emulator-to-peripheral queue, and one write-loop iteration on that item, with u
writable on the target, issues exactly one GATT write with exactly those bytes. -/
theorem C2_write_forward (findProps : Uuid → Option (List String))
    (props : List String) (u : Uuid) (b : Bytes) (q : List (Uuid × Bytes))
    (hp : findProps u = some props)
    (hwritable : props.contains "write" = true ∨
      props.contains "write-without-response" = true) :
    onEmulatorWrite q u b = q ++ [(u, b)] ∧
    ∃ m, periphWriteStep none findProps u b = WriteAction.writeGattChar u b m := by
  refine ⟨rfl, ?_⟩
  by_cases hww : props.contains "write-without-response" = true
  · have h1 : "write-without-response" ∈ props := (contains_eq_true_iff_mem _ _).mp hww
    exact ⟨WriteMode.unacknowledged,
      by simp [periphWriteStep, periphWriteAction, runHook, hp, h1]⟩
  · have h1 : "write-without-response" ∉ props := fun hmem =>
      hww ((contains_eq_true_iff_mem _ _).mpr hmem)
    have hw : props.contains "write" = true := by
      rcases hwritable with h | h
      · exact h
      · exact absurd h hww
    have h2 : "write" ∈ props := (contains_eq_true_iff_mem _ _).mp hw
    exact ⟨WriteMode.acknowledged,
      by simp [periphWriteStep, periphWriteAction, runHook, hp, h1, h2]⟩

/-- C2 witness: Scenario A at a concrete input — an inbound write of bytes
DE AD BE EF to u1 enqueues exactly one item and produces exactly one outbound
write carrying those bytes. -/
theorem C2_write_forward_witness :
    onEmulatorWrite [] "u1" [222, 173, 190, 239] = [("u1", [222, 173, 190, 239])] ∧
    ∃ m, periphWriteStep none fpOnlyWrite "u1" [222, 173, 190, 239] =
      WriteAction.writeGattChar "u1" [222, 173, 190, 239] m :=
  C2_write_forward fpOnlyWrite ["write"] "u1" [222, 173, 190, 239] []
    (by decide) (Or.inl (by decide))

/-- C3: StartNotify sets the notifying flag and emits a PropertiesChanged
signal on Notifying; StopNotify clears it and emits the signal; push_notify
always stores the new value and emits a PropertiesChanged signal on Value
exactly when the characteristic is notifying, emitting nothing otherwise. -/
theorem C3_notify_lifecycle (c : GattCharacteristic) (d : Bytes) :
    (c.StartNotify).1.notifying = true ∧
    Event.propsChangedNotifying true ∈ (c.StartNotify).2 ∧
    (c.StopNotify).1.notifying = false ∧
    (c.StopNotify).2 = [Event.propsChangedNotifying false] ∧
    (c.push_notify d).1.value = d ∧
    (c.push_notify d).2 =
      (if c.notifying then [Event.propsChangedValue d] else []) := by
  refine ⟨rfl, ?_, rfl, rfl, ?_, ?_⟩
  · simp [GattCharacteristic.StartNotify]
  · cases hn : c.notifying <;> simp [GattCharacteristic.push_notify, hn]
  · cases hn : c.notifying <;> simp [GattCharacteristic.push_notify, hn]

/-- C4: counterexample. With an OnNotifyFromTarget hook that raises on every
call, a notification from the target on the fea1 characteristic is not
aborted: the exception is caught and the original payload still reaches the
emulated peripheral, whose push_notify is invoked once with it. -/
theorem C4_counterexample :
    (relayNotification (some (fun _ _ => HookOutcome.exn)) startFakePeripheral
      uuidFea1 [7, 0, 0, 0, 0, 0, 0, 0, 0, 0]).2.1 =
        [(uuidFea1, [7, 0, 0, 0, 0, 0, 0, 0, 0, 0])] ∧
    [(uuidFea1, ([7, 0, 0, 0, 0, 0, 0, 0, 0, 0] : Bytes))] ≠
      ([] : List (Uuid × Bytes)) := by
  exact ⟨by decide, by decide⟩

/-- C4 amended: an interception-hook exception is caught and logged and the
relay continues with subsequent forwards, but the failing forward is not
aborted: on the notify path the item is still enqueued with its original
payload, and on the write path the GATT write is still issued with the
original payload. -/
theorem C4_amended_hook_exn (hook : Hook) (u : Uuid) (b : Bytes)
    (q : List (Uuid × Bytes)) (findProps : Uuid → Option (List String))
    (props : List String)
    (hexn : hook u b = HookOutcome.exn)
    (hp : findProps u = some props)
    (hww : props.contains "write-without-response" = true) :
    onPeripheralNotification (some hook) q u b = q ++ [(u, b)] ∧
    periphWriteStep (some hook) findProps u b =
      WriteAction.writeGattChar u b WriteMode.unacknowledged := by
  have h1 : "write-without-response" ∈ props := (contains_eq_true_iff_mem _ _).mp hww
  constructor
  · simp [onPeripheralNotification, putNowait, runHook, hexn, hookApply]
  · simp [periphWriteStep, periphWriteAction, runHook, hexn, hookApply, hp, h1]

/-- C4 witness: the amended behavior at a concrete always-raising hook. -/
theorem C4_amended_hook_exn_witness :
    onPeripheralNotification (some (fun _ _ => HookOutcome.exn)) [] "u1" [1, 2] =
      [] ++ [("u1", [1, 2])] ∧
    periphWriteStep (some (fun _ _ => HookOutcome.exn)) fpBoth "u1" [1, 2] =
      WriteAction.writeGattChar "u1" [1, 2] WriteMode.unacknowledged :=
  C4_amended_hook_exn (fun _ _ => HookOutcome.exn) "u1" [1, 2] [] fpBoth
    ["write", "write-without-response"] rfl (by decide) (by decide)

/-- C5: with an OnNotifyFromTarget hook registered, a notification (u, b) from
the target on a characteristic known to the emulated peripheral leads to
exactly one push_notify invocation, whose payload is the replacement r when the
hook returns some r and the original b when it returns none. -/
theorem C5_hook_override (hook : Hook) (p : FakePeripheral) (u : Uuid)
    (b : Bytes) (c : GattCharacteristic) (res : Option Bytes)
    (hfind : p.findChar u = some c) (hres : hook u b = HookOutcome.ok res) :
    (relayNotification (some hook) p u b).2.1 = [(u, res.getD b)] := by
  cases res <;>
    simp [relayNotification, onPeripheralNotification, putNowait, runHook, hres,
      hookApply, FakePeripheral.notify_characteristic, hfind]

/-- C5 witness: Scenario C — a hook returning byte 1C overrides a fea1
notification carrying the 10-byte original; the single push_notify call
carries 1C. -/
theorem C5_hook_override_witness :
    (relayNotification (some (fun _ _ => HookOutcome.ok (some [28])))
      startFakePeripheral uuidFea1 [7, 0, 0, 0, 0, 0, 0, 0, 0, 0]).2.1 =
      [(uuidFea1, [28])] :=
  C5_hook_override (fun _ _ => HookOutcome.ok (some [28])) startFakePeripheral
    uuidFea1 [7, 0, 0, 0, 0, 0, 0, 0, 0, 0] char_fea1 (some [28]) (by decide) rfl

/-- C6: counterexample. The fea1 characteristic's flags contain neither write
capability, yet WriteValue on it succeeds: no NotWritable rejection is
produced, because the source method has no capability check and no error
path. -/
theorem C6_counterexample :
    char_fea1.flags.contains "write" = false ∧
    char_fea1.flags.contains "write-without-response" = false ∧
    char_fea1.WriteValue [222, 173] = Except.ok (char_fea1, []) := by
  refine ⟨by decide, by decide, rfl⟩

/-- C6 amended: WriteValue performs no capability check and always succeeds; it
invokes the write hook when one is registered, so a characteristic with no
registered write hook — as every non-writable characteristic of the hardcoded
topology — produces no forward, but the caller is never rejected with
NotWritable. -/
theorem C6_amended_no_capability_check (c : GattCharacteristic) (d : Bytes)
    (hno : c.hasOnWrite = false) :
    c.WriteValue d = Except.ok (c, []) ∧
    (∀ c2 : GattCharacteristic, ∀ d2 : Bytes,
      exceptIsOk (c2.WriteValue d2) = true) ∧
    char_fea1.hasOnWrite = false ∧ char_33f2.hasOnWrite = false := by
  refine ⟨by simp [GattCharacteristic.WriteValue, hno], fun c2 d2 => rfl, rfl, rfl⟩

/-- C6 witness: the amended behavior at the concrete fea1 characteristic. -/
theorem C6_amended_witness :
    char_fea1.WriteValue [1] = Except.ok (char_fea1, []) ∧
    (∀ c2 : GattCharacteristic, ∀ d2 : Bytes,
      exceptIsOk (c2.WriteValue d2) = true) ∧
    char_fea1.hasOnWrite = false ∧ char_33f2.hasOnWrite = false :=
  C6_amended_no_capability_check char_fea1 [1] rfl

/-- C7: counterexample. A topology in which two characteristics share the ffd1
uuid is not rejected: the registration step succeeds because the source has no
duplicate check, the dict silently collapses the duplicate by overwriting, and
no ConfigError is produced. -/
theorem C7_counterexample :
    ¬ (dupTopology.map GattCharacteristic.uuid).Nodup ∧
    exceptIsOk (startRegistration dupTopology) = true ∧
    registerChars dupTopology = [(uuidFfd1, char_ffd1)] := by
  refine ⟨by decide, rfl, by decide⟩

/-- C7 amended: the registration step performs no duplicate-uuid check and
never fails — a duplicate would be silently overwritten by the dict insert —
but the hardcoded topology's three uuids are pairwise distinct, so the actually
configured server exposes a duplicate-free uuid set whose registered keys are
exactly those three uuids. -/
theorem C7_amended_unique_uuids :
    (startCharacteristics.map GattCharacteristic.uuid).Nodup ∧
    (registerChars startCharacteristics).map Prod.fst =
      startCharacteristics.map GattCharacteristic.uuid ∧
    (∀ cs : List GattCharacteristic, exceptIsOk (startRegistration cs) = true) := by
  refine ⟨by decide, by decide, fun cs => rfl⟩

/-- C8: the write-loop response-mode decision — when the target characteristic
advertises both write and write-without-response the write is issued
unacknowledged, and when only the acknowledged write capability is advertised
it is issued acknowledged. -/
theorem C8_response_mode (findProps : Uuid → Option (List String))
    (props : List String) (u : Uuid) (b : Bytes)
    (hp : findProps u = some props) :
    (props.contains "write-without-response" = true →
      props.contains "write" = true →
      periphWriteAction findProps u b =
        WriteAction.writeGattChar u b WriteMode.unacknowledged) ∧
    (props.contains "write-without-response" = false →
      props.contains "write" = true →
      periphWriteAction findProps u b =
        WriteAction.writeGattChar u b WriteMode.acknowledged) := by
  constructor
  · intro hww _
    have h1 : "write-without-response" ∈ props := (contains_eq_true_iff_mem _ _).mp hww
    simp [periphWriteAction, hp, h1]
  · intro hww hw
    have h1 : "write-without-response" ∉ props := by
      intro hmem
      rw [(contains_eq_true_iff_mem props "write-without-response").mpr hmem] at hww
      exact absurd hww (by decide)
    have h2 : "write" ∈ props := (contains_eq_true_iff_mem _ _).mp hw
    simp [periphWriteAction, hp, h1, h2]

/-- C8 witness: the decision at concrete property tables — both capabilities
give an unacknowledged write, write-only gives an acknowledged write. -/
theorem C8_response_mode_witness :
    periphWriteAction fpBoth "u1" [1] =
      WriteAction.writeGattChar "u1" [1] WriteMode.unacknowledged ∧
    periphWriteAction fpOnlyWrite "u1" [1] =
      WriteAction.writeGattChar "u1" [1] WriteMode.acknowledged :=
  ⟨(C8_response_mode fpBoth ["write", "write-without-response"] "u1" [1]
      (by decide)).1 (by decide) (by decide),
   (C8_response_mode fpOnlyWrite ["write"] "u1" [1] (by decide)).2
      (by decide) (by decide)⟩

/-- C9: counterexample. In one session, a ReadValue on the ffd1 characteristic
followed by a StartNotify on the fea1 characteristic raises the
central-connected event twice — once per characteristic — because the
connected flag is stored per characteristic, not per session. -/
theorem C9_counterexample :
    countConnected (startFakePeripheral.runAccesses
      [Access.readValue uuidFfd1, Access.startNotifyOn uuidFea1]).2 = 2 ∧
    (2 : Nat) ≠ 1 := by
  exact ⟨by decide, by decide⟩

/-- C9 amended: the central-connected event is one-time per characteristic: a
fresh characteristic with the connect callback registered raises it exactly
once on its first access, whether a ReadValue or a StartNotify, and no later
access to the same characteristic raises it again; each other fresh
characteristic raises its own event on its own first access. -/
theorem C9_amended_per_characteristic (c : GattCharacteristic)
    (hcb : c.hasOnClientConnect = true) (hfresh : c.clientConnected = false) :
    (c.ReadValue).2.1 = [Event.clientConnected] ∧
    ((c.ReadValue).1.ReadValue).2.1 = [] ∧
    ((c.ReadValue).1.StartNotify).2 = [Event.propsChangedNotifying true] ∧
    (c.StartNotify).2 =
      [Event.clientConnected, Event.propsChangedNotifying true] := by
  refine ⟨?_, ?_, ?_, ?_⟩ <;>
    simp [GattCharacteristic.ReadValue, GattCharacteristic.StartNotify,
      GattCharacteristic.detectClientConnect, hcb, hfresh]

/-- C9 witness: the per-characteristic once-only behavior at the concrete
fresh fea1 characteristic. -/
theorem C9_amended_witness :
    (char_fea1.ReadValue).2.1 = [Event.clientConnected] ∧
    ((char_fea1.ReadValue).1.ReadValue).2.1 = [] ∧
    ((char_fea1.ReadValue).1.StartNotify).2 = [Event.propsChangedNotifying true] ∧
    (char_fea1.StartNotify).2 =
      [Event.clientConnected, Event.propsChangedNotifying true] :=
  C9_amended_per_characteristic char_fea1 rfl rfl

/-- C10: load_profile admits a uuid to the writable set exactly when its
properties contain writable or write-without-response, so a characteristic
whose properties are only write is excluded there, while the live-discovery
fallback find_from_live keys on write and includes such a characteristic. -/
theorem C10_writable_sets (chars : List (Uuid × List String)) (u : Uuid) :
    (u ∈ loadProfileWritable chars ↔
      ∃ props, (u, props) ∈ chars ∧
        ("writable" ∈ props ∨ "write-without-response" ∈ props)) ∧
    (u ∈ findFromLiveWritable chars ↔
      ∃ props, (u, props) ∈ chars ∧
        ("write" ∈ props ∨ "write-without-response" ∈ props)) ∧
    loadProfileWritable [("u1", ["write"])] = [] ∧
    findFromLiveWritable [("u1", ["write"])] = ["u1"] := by
  refine ⟨?_, ?_, by decide, by decide⟩
  · rw [loadProfileWritable, mem_map_fst_filter]
    constructor
    · rintro ⟨props, hmem, hp⟩
      rw [Bool.or_eq_true, contains_eq_true_iff_mem, contains_eq_true_iff_mem] at hp
      exact ⟨props, hmem, hp⟩
    · rintro ⟨props, hmem, hp⟩
      refine ⟨props, hmem, ?_⟩
      rw [Bool.or_eq_true, contains_eq_true_iff_mem, contains_eq_true_iff_mem]
      exact hp
  · rw [findFromLiveWritable, mem_map_fst_filter]
    constructor
    · rintro ⟨props, hmem, hp⟩
      rw [Bool.or_eq_true, contains_eq_true_iff_mem, contains_eq_true_iff_mem] at hp
      exact ⟨props, hmem, hp⟩
    · rintro ⟨props, hmem, hp⟩
      refine ⟨props, hmem, ?_⟩
      rw [Bool.or_eq_true, contains_eq_true_iff_mem, contains_eq_true_iff_mem]
      exact hp
